import Mathlib

/-!
Verification of the SimuBridge Simod HTTP wrapper
(`simod_http_augemented/main.py`).

The file shallowly embeds the job lifecycle of the wrapper:

* `RequestStatus`, `DiscoveryRequest` — the pydantic data model;
* `save_request` / `load_request` — the JSON file persistence
  (`request.json` under `STORAGE_PATH/requests/<id>/`), modelled over an
  association-list store keyed by request id;
* `run_simod_discovery` — the background runner, modelled as a pure
  function of an environment `RunEnv` that supplies the subprocess exit
  code, the wall-clock timestamps, and an oracle naming the operation
  (if any) at which an internal exception is raised;
* `read_discovery` / `read_discovery_file` — the two GET routes,
  modelled over the store and an abstract file system `FS`;
* `_infer_event_log_extension` / `_infer_media_type` — the helpers;
* `create_discovery_store` — the storage effect of the POST route
  (`mkdir(parents=True, exist_ok=True)` plus the initial save).

Abstractions used throughout (noted where they matter):
`pandas.Timestamp` values are modelled as `Nat` and their ISO-format
serialization as the identity (pandas round-trips ISO strings);
`pathlib.Path` values are modelled as the `String` that `str` returns
(`Path(str(p)) == p`, and `str` of a `Path` is never the empty string);
raw bytes are `List Nat`.
-/

namespace SimuBridge

/-- `RequestStatus` enum of `main.py` (lines 40-45). -/
inductive RequestStatus where
  | unknown
  | accepted
  | running
  | success
  | failure
deriving DecidableEq, Repr

/-- The `.value` string of a `RequestStatus` member. -/
def RequestStatus.value : RequestStatus → String
  | .unknown => "unknown"
  | .accepted => "accepted"
  | .running => "running"
  | .success => "success"
  | .failure => "failure"

/-- `RequestStatus(s)`: look a string up in the enum; `none` models the
`ValueError` Python raises for a value outside the enum. -/
def RequestStatus.fromValue (s : String) : Option RequestStatus :=
  if s = "unknown" then some .unknown
  else if s = "accepted" then some .accepted
  else if s = "running" then some .running
  else if s = "success" then some .success
  else if s = "failure" then some .failure
  else none

/-- `DiscoveryRequest` pydantic model (lines 48-55).  `timestamp` is a
`pandas.Timestamp` (modelled as `Nat`), `output_dir` a `pathlib.Path`
(modelled as `String`); both default to `None`. -/
structure DiscoveryRequest where
  id : String
  status : RequestStatus
  timestamp : Option Nat := none
  output_dir : Option String := none
deriving DecidableEq, Repr

/-- `DiscoveryResponse` pydantic model (lines 58-61). -/
structure DiscoveryResponse where
  request_id : String
  request_status : RequestStatus
  archive_url : Option String := none
deriving DecidableEq, Repr

/-- The JSON object written to `request.json` by `save_request`
(lines 71-77): field-named, status as its enum value string, timestamp
as its ISO string (identity under our `Nat` model), output_dir as
`str(...)` (identity under our `String` model), absent fields as
`null`. -/
structure StoredRecord where
  id : String
  status : String
  timestamp : Option Nat
  output_dir : Option String
deriving DecidableEq, Repr

/-- The body of the dict literal in `save_request` (lines 72-77).
`request.timestamp.isoformat() if request.timestamp else None` and
`str(request.output_dir) if request.output_dir else None`: `Timestamp`
and `Path` objects are always truthy, so both are `Option.map` of the
respective (identity-modelled) conversion. -/
def request_json (request : DiscoveryRequest) : StoredRecord :=
  { id := request.id
    status := request.status.value
    timestamp := request.timestamp
    output_dir := request.output_dir }

/-- The on-disk request store: one `request.json` per request id. -/
abbrev Store := List (String × StoredRecord)

/-- `save_request` (lines 65-77): creates the request directory
(`exist_ok=True`) and overwrites `request.json` with the serialized
record. -/
def save_request (store : Store) (request : DiscoveryRequest) : Store :=
  (request.id, request_json request) ::
    (List.filter (fun p => p.1 != request.id) store)

/-- Errors `load_request` can raise. -/
inductive LoadErr where
  | fileNotFound
  | valueError
deriving DecidableEq, Repr

/-- `load_request` (lines 80-96): raises `FileNotFoundError` when the
request directory does not exist; otherwise parses `request.json`.
`RequestStatus(data['status'])` raises `ValueError` for an unknown
status string.  `pd.Timestamp(data['timestamp']) if data['timestamp']
else None` and `Path(data['output_dir']) if data['output_dir'] else
None` use Python truthiness: `null` and the empty string both map to
`None`. -/
def load_request (store : Store) (request_id : String) :
    Except LoadErr DiscoveryRequest :=
  match List.lookup request_id store with
  | none => .error .fileNotFound
  | some data =>
    match RequestStatus.fromValue data.status with
    | none => .error .valueError
    | some st =>
      .ok { id := data.id
            status := st
            timestamp := data.timestamp
            output_dir :=
              match data.output_dir with
              | none => none
              | some s => if s = "" then none else some s }

/-! ## The background runner `run_simod_discovery` (lines 100-154)

Per-request persistence is modelled at the record level: the store cell
for the request is an `Option DiscoveryRequest` (`none` = no
`request.json`), justified by the `save_request`/`load_request` round
trip proved below.  The runner is the only writer of its own request
(ids are fresh uuid4 values), so the reload at line 135 and in the
`except` block reads back the runner's own last save.

`RunEnv` supplies everything the environment decides: the subprocess
exit code, the three `pd.Timestamp.now()` values, and a fault oracle
`failAt`: `some k` means an exception is raised at fallible operation
`k` of the `try` block, before that operation takes effect:

* 0 — `load_request` (line 103),
* 1 — `save_request` of the `running` record (line 106),
* 2 — `output_dir.mkdir` (line 109),
* 3 — `subprocess.run` fails to spawn (line 123),
* 4 — the reload `load_request` (line 135),
* 5 — the final `save_request` (line 144).

`handlerFails` means the `load_request`/`save_request` inside the
`except` block (lines 149-152) itself raises. -/

structure RunEnv where
  exitCode : Int
  t1 : Nat
  t2 : Nat
  t3 : Nat
  failAt : Option Nat
  handlerFails : Bool
deriving DecidableEq, Repr

def STORAGE_PATH : String := "/tmp/simod"

/-- `STORAGE_PATH / 'requests' / request_id / 'output'` (line 108). -/
def outputDirPath (request_id : String) : String :=
  STORAGE_PATH ++ "/requests/" ++ request_id ++ "/output"

/-- Store cell for one request together with the list of records the
runner persisted, in order. -/
structure RunOutcome where
  cell : Option DiscoveryRequest
  writes : List DiscoveryRequest
deriving DecidableEq, Repr

/-- The `except Exception` handler (lines 146-154): best-effort reload
and mark-`failure`; a failing reload (`cell = none`) or a failing
save/load (`handlerFails`) is logged and swallowed, leaving cell and
writes unchanged. -/
def mark_failure_handler (env : RunEnv) (cell : Option DiscoveryRequest)
    (writes : List DiscoveryRequest) : RunOutcome :=
  if env.handlerFails then ⟨cell, writes⟩
  else
    match cell with
    | none => ⟨none, writes⟩
    | some r =>
      let rf := { r with status := .failure, timestamp := some env.t3 }
      ⟨some rf, writes ++ [rf]⟩

/-- The `try` block of `run_simod_discovery` (lines 102-144).  `.ok` is
normal completion; `.error (cell, writes)` is an exception escaping the
block, carrying the store state and writes made so far. -/
def run_body (request_id : String) (cell₀ : Option DiscoveryRequest)
    (env : RunEnv) :
    Except (Option DiscoveryRequest × List DiscoveryRequest) RunOutcome :=
  -- request = load_request(request_id)
  if env.failAt = some 0 then .error (cell₀, [])
  else
    match cell₀ with
    | none => .error (none, [])  -- FileNotFoundError
    | some r₀ =>
      -- request.status = RUNNING; request.timestamp = now; save_request
      let r₁ : DiscoveryRequest :=
        { r₀ with status := .running, timestamp := some env.t1 }
      if env.failAt = some 1 then .error (some r₀, [])
      else
        -- output_dir.mkdir(parents=True, exist_ok=True)
        if env.failAt = some 2 then .error (some r₁, [r₁])
        else
          -- result = subprocess.run(cmd, ...)
          if env.failAt = some 3 then .error (some r₁, [r₁])
          else
            -- request = load_request(request_id)  (reload; cell is r₁)
            if env.failAt = some 4 then .error (some r₁, [r₁])
            else
              let r₂ : DiscoveryRequest :=
                if env.exitCode = 0 then
                  { r₁ with status := .success,
                            output_dir := some (outputDirPath request_id) }
                else
                  { r₁ with status := .failure }
              let r₃ : DiscoveryRequest := { r₂ with timestamp := some env.t2 }
              -- save_request(request)
              if env.failAt = some 5 then .error (some r₁, [r₁])
              else .ok ⟨some r₃, [r₁, r₃]⟩

/-- `run_simod_discovery` (lines 100-154): the `try` block with the
catch-all `except` handler around it.  Total: no exception escapes. -/
def run_simod_discovery (request_id : String)
    (cell₀ : Option DiscoveryRequest) (env : RunEnv) : RunOutcome :=
  match run_body request_id cell₀ env with
  | .ok out => out
  | .error (cell, w) => mark_failure_handler env cell w

/-- `run_simod_discovery` with the exception behaviour made explicit in
the type: an `Except.error` would be an exception escaping to the
caller (the FastAPI background-task machinery).  The source's `except`
blocks make this impossible. -/
def run_simod_discovery_exc (request_id : String)
    (cell₀ : Option DiscoveryRequest) (env : RunEnv) :
    Except LoadErr RunOutcome :=
  match run_body request_id cell₀ env with
  | .ok out => .ok out
  | .error (cell, w) => .ok (mark_failure_handler env cell w)

/-- The record `create_discovery` builds (lines 170-173):
`DiscoveryRequest(id=request_id, status=RequestStatus.ACCEPTED)` with
default `timestamp=None`, `output_dir=None`. -/
def initialRequest (request_id : String) : DiscoveryRequest :=
  { id := request_id, status := .accepted }

/-- Every value the persisted record takes over a request's lifetime:
the `accepted` record written at submission, followed by each record
the background runner persists. -/
def jobCells (request_id : String) (env : RunEnv) : List DiscoveryRequest :=
  initialRequest request_id ::
    (run_simod_discovery request_id (some (initialRequest request_id)) env).writes

/-- The successive statuses written to the persisted record. -/
def jobStatusTrace (request_id : String) (env : RunEnv) : List RequestStatus :=
  (jobCells request_id env).map DiscoveryRequest.status

/-! ## The GET routes (lines 218-317) and helpers (lines 321-354) -/

/-- Abstract read-only file system: which paths exist, the bytes of a
file, and the bytes of the `gztar` archive `shutil.make_archive`
produces from a directory (line 276). -/
structure FS where
  pathExists : String → Bool
  readBytes : String → List Nat
  archiveBytes : String → List Nat

/-- Helper for Python `in` on strings: does `pat` occur as a contiguous
run of `l`? -/
def strContainsAux (pat : List Char) : List Char → Bool
  | [] => pat.isEmpty
  | a :: l => pat.isPrefixOf (a :: l) || strContainsAux pat l

/-- Python `pat in s` for strings. -/
def pyIn (pat s : String) : Bool :=
  strContainsAux pat.data s.data

/-- Python `s.endswith(suffix)`. -/
def pyEndsWith (s suffix : String) : Bool :=
  List.isSuffixOf suffix.data s.data

/-- Python `s.lower()` (ASCII case folding, which covers every
comparison the code makes). -/
def pyLower (s : String) : String :=
  String.mk (s.data.map Char.toLower)

/-- Python truthiness of an optional string (`None` and `''` are
falsy). -/
def pyStrTruthy : Option String → Bool
  | none => false
  | some s => !(s == "")

/-- `filename and filename.endswith(suffix)` as a Bool. -/
def filenameEndsWith (filename : Option String) (suffix : String) : Bool :=
  pyStrTruthy filename && pyEndsWith (filename.getD "") suffix

/-- `_infer_event_log_extension` (lines 321-330). -/
def _infer_event_log_extension (content_type : String)
    (filename : Option String) : String :=
  if pyIn "csv" (pyLower content_type) || filenameEndsWith filename ".csv"
  then ".csv"
  else if pyIn "xml" (pyLower content_type) || filenameEndsWith filename ".xes"
  then ".xes"
  else if filenameEndsWith filename ".xml"
  then ".xml"
  else ".csv"

/-- The extension rules as the specification words them: CSV if hinted
or the filename ends `.csv`; XES if hinted as XML-family or the
filename ends `.xes`; XML if the filename ends `.xml`; else default to
CSV. -/
def inferExtensionSpec (content_type : String)
    (filename : Option String) : String :=
  if pyIn "csv" (pyLower content_type)
      || pyEndsWith (filename.getD "") ".csv"
  then ".csv"
  else if pyIn "xml" (pyLower content_type)
      || pyEndsWith (filename.getD "") ".xes"
  then ".xes"
  else if pyEndsWith (filename.getD "") ".xml"
  then ".xml"
  else ".csv"

/-- `_infer_media_type` (lines 333-354). -/
def _infer_media_type (file_name : String) : String :=
  if pyEndsWith file_name ".csv" then "text/csv"
  else if pyEndsWith file_name ".xml" || pyEndsWith file_name ".xes"
      || pyEndsWith file_name ".bpmn" then "application/xml"
  else if pyEndsWith file_name ".json" then "application/json"
  else if pyEndsWith file_name ".png" then "image/png"
  else if pyEndsWith file_name ".jpg" || pyEndsWith file_name ".jpeg"
  then "image/jpeg"
  else if pyEndsWith file_name ".pdf" then "application/pdf"
  else if pyEndsWith file_name ".txt" then "text/plain"
  else if pyEndsWith file_name ".gz" then "application/gzip"
  else if pyEndsWith file_name ".tar" then "application/tar"
  else "application/octet-stream"

/-- Result of `GET /discoveries/{request_id}` (lines 218-248): a 200
`DiscoveryResponse`, the 404 JSON body with the synthetic `unknown`
status, or an exception escaping the handler (only `FileNotFoundError`
is caught). -/
inductive StatusResult where
  | ok (resp : DiscoveryResponse)
  | unknownNotFound (request_id : String) (request_status : String)
      (message : String)
  | raised (e : LoadErr)
deriving DecidableEq, Repr

/-- `read_discovery` (lines 218-248). -/
def read_discovery (store : Store) (fs : FS) (request_id : String) :
    StatusResult :=
  match load_request store request_id with
  | .error .fileNotFound =>
    .unknownNotFound request_id RequestStatus.unknown.value "Request not found"
  | .error e => .raised e
  | .ok request =>
    let archive_url : Option String :=
      if request.status = .success then
        match request.output_dir with
        | some od =>
          if fs.pathExists (od ++ "/best_result") then
            some ("/discoveries/" ++ request_id ++ "/results.tar.gz")
          else none
        | none => none
      else none
    .ok { request_id := request_id
          request_status := request.status
          archive_url := archive_url }

/-- Result of `GET /discoveries/{request_id}/{file_name}`
(lines 251-317): raw bytes with a media type and attachment filename, a
404 JSON body, or an escaping exception. -/
inductive FileResult where
  | content (body : List Nat) (media_type : String) (filename : String)
  | notFound (message : String)
  | raised (e : LoadErr)
deriving DecidableEq, Repr

def FileResult.isNotFound : FileResult → Bool
  | .notFound _ => true
  | _ => false

/-- `read_discovery_file` (lines 251-317). -/
def read_discovery_file (store : Store) (fs : FS)
    (request_id file_name : String) : FileResult :=
  match load_request store request_id with
  | .error .fileNotFound => .notFound "Request not found"
  | .error e => .raised e
  | .ok request =>
    match request.output_dir with
    | none => .notFound "Output not found"
    | some od =>
      if !(fs.pathExists od) then .notFound "Output not found"
      else if file_name = "results.tar.gz" then
        if !(fs.pathExists (od ++ "/best_result")) then
          .notFound "Results not found"
        else
          .content (fs.archiveBytes (od ++ "/best_result"))
            "application/gzip" "results.tar.gz"
      else
        if fs.pathExists (od ++ "/best_result/" ++ file_name) then
          .content (fs.readBytes (od ++ "/best_result/" ++ file_name))
            (_infer_media_type file_name) file_name
        else if fs.pathExists (od ++ "/" ++ file_name) then
          .content (fs.readBytes (od ++ "/" ++ file_name))
            (_infer_media_type file_name) file_name
        else .notFound ("File not found: " ++ file_name)

/-! ## The storage effect of `POST /discoveries` (lines 169-197) -/

inductive CreateErr where
  | alreadyExists
deriving DecidableEq, Repr

/-- `Path.mkdir(parents=..., exist_ok=...)` on a set of existing
directories: raises `FileExistsError` on an existing directory only
when `exist_ok` is false. -/
def Path.mkdir (dirs : List String) (p : String)
    (_parents exist_ok : Bool) : Except CreateErr (List String) :=
  if p ∈ dirs then
    if exist_ok then .ok dirs else .error .alreadyExists
  else .ok (p :: dirs)

/-- The job-store effect of `create_discovery` (lines 169-197):
`request_dir.mkdir(parents=True, exist_ok=True)` (line 176), then
`save_request(request)` (line 197), which itself calls
`request_dir.mkdir(parents=True, exist_ok=True)` (line 68) and
overwrites `request.json`. -/
def create_discovery_store (store : Store) (dirs : List String)
    (request_id : String) : Except CreateErr (Store × List String) :=
  match Path.mkdir dirs ("requests/" ++ request_id) true true with
  | .error e => .error e
  | .ok dirs₁ =>
    match Path.mkdir dirs₁ ("requests/" ++ request_id) true true with
    | .error e => .error e
    | .ok dirs₂ =>
      .ok (save_request store (initialRequest request_id), dirs₂)

/-! ## Abbreviations for the records the runner writes, and concrete
test fixtures used by witnesses and counterexamples. -/

/-- The record persisted at line 106: the loaded record with status
`running` and a fresh timestamp. -/
abbrev runningRecord (r : DiscoveryRequest) (env : RunEnv) : DiscoveryRequest :=
  { r with status := .running, timestamp := some env.t1 }

/-- A record marked `failure` with a fresh timestamp (lines 140/143-144
and 150-152): only status and timestamp change. -/
abbrev failedRecord (r : DiscoveryRequest) (t : Nat) : DiscoveryRequest :=
  { r with status := .failure, timestamp := some t }

/-- The record persisted on the exit-code-zero branch (lines 137-138,
143-144): status `success`, `output_dir` set, fresh timestamp. -/
abbrev successRecord (request_id : String) (r : DiscoveryRequest) (t : Nat) :
    DiscoveryRequest :=
  { r with status := .success, timestamp := some t,
           output_dir := some (outputDirPath request_id) }

/-- A file system with no paths at all. -/
def fsEmpty : FS :=
  { pathExists := fun _ => false
    readBytes := fun _ => []
    archiveBytes := fun _ => [] }

/-- A file system on which every path exists and every file reads as
`[1, 2, 3]`. -/
def fsAll : FS :=
  { pathExists := fun _ => true
    readBytes := fun _ => [1, 2, 3]
    archiveBytes := fun _ => [7] }

/-- A store holding a record with status `running` but `output_dir`
set: not producible by the system itself, but accepted by
`read_discovery_file`, which never inspects the status. -/
def storeRunningWithOutput : Store :=
  [("j", { id := "j", status := "running", timestamp := none,
           output_dir := some "/od" })]

/-- A store holding a terminal `failure` record with no output
directory. -/
def storeFailedNoOutput : Store :=
  [("k", { id := "k", status := "failure", timestamp := some 4,
           output_dir := none })]

/-- A store already holding a record for id `"j"`. -/
def storeExistingJ : Store :=
  [("j", request_json { id := "j", status := .accepted })]

/-- Whether an `Except` result is a normal (non-exceptional) return. -/
def exceptOk : Except LoadErr RunOutcome → Bool
  | .ok _ => true
  | .error _ => false

/-! # Theorems -/

theorem RequestStatus.fromValue_value (s : RequestStatus) :
    RequestStatus.fromValue s.value = some s := by
  cases s <;> rfl

/-- Every run of the background runner on a present record falls into
one of four cases: an internal failure before the `running` record is
persisted (fault points 0-1, before the external tool launches), an
internal failure after it (fault points 2-5), a clean run with exit
code zero, or a clean run with a nonzero exit code. -/
theorem run_simod_discovery_cases (request_id : String)
    (r₀ : DiscoveryRequest) (env : RunEnv) :
    ((env.failAt = some 0 ∨ env.failAt = some 1) ∧
      run_simod_discovery request_id (some r₀) env =
        if env.handlerFails then ⟨some r₀, []⟩
        else ⟨some (failedRecord r₀ env.t3), [failedRecord r₀ env.t3]⟩) ∨
    ((env.failAt = some 2 ∨ env.failAt = some 3 ∨ env.failAt = some 4 ∨
        env.failAt = some 5) ∧
      run_simod_discovery request_id (some r₀) env =
        if env.handlerFails then
          ⟨some (runningRecord r₀ env), [runningRecord r₀ env]⟩
        else
          ⟨some (failedRecord (runningRecord r₀ env) env.t3),
           [runningRecord r₀ env, failedRecord (runningRecord r₀ env) env.t3]⟩) ∨
    (env.exitCode = 0 ∧
      run_simod_discovery request_id (some r₀) env =
        ⟨some (successRecord request_id (runningRecord r₀ env) env.t2),
         [runningRecord r₀ env,
          successRecord request_id (runningRecord r₀ env) env.t2]⟩) ∨
    (env.exitCode ≠ 0 ∧
      run_simod_discovery request_id (some r₀) env =
        ⟨some (failedRecord (runningRecord r₀ env) env.t2),
         [runningRecord r₀ env,
          failedRecord (runningRecord r₀ env) env.t2]⟩) := by
  obtain ⟨ec, t1, t2, t3, fa, hf⟩ := env
  simp only [run_simod_discovery, run_body, mark_failure_handler]
  cases fa with
  | none =>
    by_cases hec : ec = 0
    · refine Or.inr (Or.inr (Or.inl ⟨hec, ?_⟩))
      simp [hec]
    · refine Or.inr (Or.inr (Or.inr ⟨hec, ?_⟩))
      simp [hec]
  | some k =>
    match k with
    | 0 =>
      refine Or.inl ⟨Or.inl rfl, ?_⟩
      cases hf <;> simp
    | 1 =>
      refine Or.inl ⟨Or.inr rfl, ?_⟩
      cases hf <;> simp
    | 2 =>
      refine Or.inr (Or.inl ⟨Or.inl rfl, ?_⟩)
      cases hf <;> simp
    | 3 =>
      refine Or.inr (Or.inl ⟨Or.inr (Or.inl rfl), ?_⟩)
      cases hf <;> simp
    | 4 =>
      refine Or.inr (Or.inl ⟨Or.inr (Or.inr (Or.inl rfl)), ?_⟩)
      cases hf <;> simp
    | 5 =>
      refine Or.inr (Or.inl ⟨Or.inr (Or.inr (Or.inr rfl)), ?_⟩)
      cases hf <;> simp
    | (n + 6) =>
      by_cases hec : ec = 0
      · refine Or.inr (Or.inr (Or.inl ⟨hec, ?_⟩))
        simp [hec]
      · refine Or.inr (Or.inr (Or.inr ⟨hec, ?_⟩))
        simp [hec]

/-- C1: for every reachable persisted job record — the `accepted`
record created at submission followed by every record the runner
persists — the `output_dir` field is set if and only if the status is
`success`: the submission record has status `accepted` and no
`output_dir`, the runner sets `output_dir` exactly on the
exit-code-zero branch, and every failure-path write leaves `output_dir`
unset. -/
theorem reachable_output_dir_iff_success (request_id : String)
    (env : RunEnv) (r : DiscoveryRequest)
    (hr : r ∈ jobCells request_id env) :
    r.output_dir.isSome = true ↔ r.status = .success := by
  unfold jobCells at hr
  rcases run_simod_discovery_cases request_id (initialRequest request_id) env
    with ⟨-, heq⟩ | ⟨-, heq⟩ | ⟨-, heq⟩ | ⟨-, heq⟩ <;>
    rw [heq] at hr
  · split at hr <;> dsimp only at hr <;> fin_cases hr <;> simp [initialRequest]
  · split at hr <;> dsimp only at hr <;> fin_cases hr <;> simp [initialRequest]
  · dsimp only at hr
    fin_cases hr <;> simp [initialRequest]
  · dsimp only at hr
    fin_cases hr <;> simp [initialRequest]

theorem reachable_output_dir_iff_success_witness :
    ((⟨"j", .success, some 2, some "/tmp/simod/requests/j/output"⟩ :
        DiscoveryRequest) ∈ jobCells "j" ⟨0, 1, 2, 3, none, false⟩) ∧
    (((⟨"j", .success, some 2, some "/tmp/simod/requests/j/output"⟩ :
        DiscoveryRequest).output_dir.isSome = true) ↔
      (⟨"j", .success, some 2, some "/tmp/simod/requests/j/output"⟩ :
        DiscoveryRequest).status = .success) :=
  ⟨by decide,
   reachable_output_dir_iff_success "j" ⟨0, 1, 2, 3, none, false⟩ _ (by decide)⟩

/-- C2: the sequence of statuses written to the persisted record
(submission record included) is a subsequence of
`accepted, running, success` or of `accepted, running, failure`; an
adjacent `accepted`-then-`failure` pair occurs only on an internal
failure before the external tool launches (fault point 0 or 1); and a
terminal status (`success` or `failure`) occurs only at the last
position of the trace. -/
theorem status_trace_monotone (request_id : String) (env : RunEnv) :
    ((jobStatusTrace request_id env).Sublist
        [RequestStatus.accepted, .running, .success] ∨
     (jobStatusTrace request_id env).Sublist
        [RequestStatus.accepted, .running, .failure]) ∧
    (∀ i, (jobStatusTrace request_id env).get? i = some .accepted →
        (jobStatusTrace request_id env).get? (i + 1) = some .failure →
        env.failAt = some 0 ∨ env.failAt = some 1) ∧
    (∀ i s, (jobStatusTrace request_id env).get? i = some s →
        (s = .success ∨ s = .failure) →
        i + 1 = (jobStatusTrace request_id env).length) := by
  unfold jobStatusTrace jobCells
  rcases run_simod_discovery_cases request_id (initialRequest request_id) env
    with ⟨hc, heq⟩ | ⟨hc, heq⟩ | ⟨hc, heq⟩ | ⟨hc, heq⟩ <;>
    rw [heq] <;>
    clear heq <;>
    try split
  all_goals
    simp only [List.map_cons, List.map_nil, initialRequest, failedRecord,
      runningRecord, successRecord]
  all_goals
    refine ⟨by decide, fun i h1 h2 => ?_, fun i s h1 h2 => ?_⟩ <;>
      first
        | exact hc
        | (rcases i with _ | _ | _ | i <;> simp_all [List.get?] <;>
            (try rcases h2 with rfl | rfl) <;> simp_all)

theorem status_trace_monotone_witness :
    ((jobStatusTrace "j" ⟨1, 0, 5, 9, some 0, false⟩).Sublist
        [RequestStatus.accepted, .running, .success] ∨
     (jobStatusTrace "j" ⟨1, 0, 5, 9, some 0, false⟩).Sublist
        [RequestStatus.accepted, .running, .failure]) ∧
    ((⟨1, 0, 5, 9, some 0, false⟩ : RunEnv).failAt = some 0 ∨
     (⟨1, 0, 5, 9, some 0, false⟩ : RunEnv).failAt = some 1) ∧
    1 + 1 = (jobStatusTrace "j" ⟨1, 0, 5, 9, some 0, false⟩).length :=
  ⟨(status_trace_monotone "j" ⟨1, 0, 5, 9, some 0, false⟩).1,
   (status_trace_monotone "j" ⟨1, 0, 5, 9, some 0, false⟩).2.1 0
     (by decide) (by decide),
   (status_trace_monotone "j" ⟨1, 0, 5, 9, some 0, false⟩).2.2 1 .failure
     (by decide) (Or.inr rfl)⟩

/-- C3: when the external-tool invocation returns (no internal
exception), the runner persists, after the `running` record, exactly
one terminal record built from the reloaded record: on exit code zero a
record with status `success`, `output_dir` set to the job's output
path, and a fresh timestamp; on a nonzero exit code a record with
status `failure`, a fresh timestamp, and the reloaded `output_dir`.
The records written hold only the four fields `id`, `status`,
`timestamp`, `output_dir` — neither the exit code nor the captured
output streams are stored. -/
theorem runner_terminal_write (request_id : String) (r₀ : DiscoveryRequest)
    (env : RunEnv) (h : env.failAt = none) :
    run_simod_discovery request_id (some r₀) env =
      if env.exitCode = 0 then
        ⟨some { id := r₀.id, status := .success, timestamp := some env.t2,
                output_dir := some (outputDirPath request_id) },
         [runningRecord r₀ env,
          { id := r₀.id, status := .success, timestamp := some env.t2,
            output_dir := some (outputDirPath request_id) }]⟩
      else
        ⟨some { id := r₀.id, status := .failure, timestamp := some env.t2,
                output_dir := r₀.output_dir },
         [runningRecord r₀ env,
          { id := r₀.id, status := .failure, timestamp := some env.t2,
            output_dir := r₀.output_dir }]⟩ := by
  obtain ⟨i, st, ts, od⟩ := r₀
  by_cases hec : env.exitCode = 0 <;>
    simp [run_simod_discovery, run_body, h, hec]

theorem runner_terminal_write_witness :
    run_simod_discovery "j" (some (initialRequest "j")) ⟨0, 1, 2, 3, none, false⟩ =
      ⟨some ⟨"j", .success, some 2, some "/tmp/simod/requests/j/output"⟩,
       [⟨"j", .running, some 1, none⟩,
        ⟨"j", .success, some 2, some "/tmp/simod/requests/j/output"⟩]⟩ := by
  have h := runner_terminal_write "j" (initialRequest "j") ⟨0, 1, 2, 3, none, false⟩ rfl
  rw [h]
  decide

/-- C4: the background run operation never propagates an exception to
its caller: `run_simod_discovery_exc` always returns `.ok`, and on any
internal failure of the `try` block it performs the best-effort
reload-and-mark-`failure` of the record — if the handler itself fails
(or the record cannot be reloaded), the error is swallowed and nothing
further is written. -/
theorem runner_never_propagates (request_id : String)
    (cell₀ : Option DiscoveryRequest) (env : RunEnv) :
    exceptOk (run_simod_discovery_exc request_id cell₀ env) = true ∧
    (∀ cell w, run_body request_id cell₀ env = .error (cell, w) →
      run_simod_discovery_exc request_id cell₀ env =
        .ok (mark_failure_handler env cell w) ∧
      (env.handlerFails = true → mark_failure_handler env cell w = ⟨cell, w⟩) ∧
      (env.handlerFails = false → cell = none →
        mark_failure_handler env cell w = ⟨none, w⟩) ∧
      (env.handlerFails = false → ∀ r, cell = some r →
        mark_failure_handler env cell w =
          ⟨some (failedRecord r env.t3), w ++ [failedRecord r env.t3]⟩)) := by
  constructor
  · cases hb : run_body request_id cell₀ env <;>
      simp [run_simod_discovery_exc, exceptOk, hb]
  · intro cell w hb
    refine ⟨?_, ?_, ?_, ?_⟩
    · simp [run_simod_discovery_exc, hb]
    · intro hhf
      simp [mark_failure_handler, hhf]
    · intro hhf hcell
      subst hcell
      simp [mark_failure_handler, hhf]
    · intro hhf r hcell
      subst hcell
      simp [mark_failure_handler, hhf]

theorem runner_never_propagates_witness :
    exceptOk (run_simod_discovery_exc "j" none ⟨1, 1, 2, 3, some 0, false⟩) = true ∧
    run_simod_discovery_exc "j" none ⟨1, 1, 2, 3, some 0, false⟩ =
      .ok (mark_failure_handler ⟨1, 1, 2, 3, some 0, false⟩ none []) :=
  ⟨(runner_never_propagates "j" none ⟨1, 1, 2, 3, some 0, false⟩).1,
   ((runner_never_propagates "j" none ⟨1, 1, 2, 3, some 0, false⟩).2
      none [] rfl).1⟩

/-- C10: every failure-path record the runner persists (nonzero exit
code, or the exception handler) keeps the `id` and `output_dir` the
record had at the preceding reload — which, the runner being the only
writer, are those of the record it started from; only `status` and
`timestamp` change. -/
theorem failure_write_frame (request_id : String) (r₀ : DiscoveryRequest)
    (env : RunEnv) (x : DiscoveryRequest)
    (hx : x ∈ (run_simod_discovery request_id (some r₀) env).writes)
    (hfail : x.status = .failure) :
    x.id = r₀.id ∧ x.output_dir = r₀.output_dir := by
  rcases run_simod_discovery_cases request_id r₀ env
    with ⟨-, heq⟩ | ⟨-, heq⟩ | ⟨-, heq⟩ | ⟨-, heq⟩ <;>
    rw [heq] at hx <;>
    clear heq <;>
    try split at hx
  all_goals
    dsimp only at hx
  all_goals
    fin_cases hx <;> simp_all

theorem failure_write_frame_witness :
    ((⟨"j", .failure, some 5, none⟩ : DiscoveryRequest) ∈
      (run_simod_discovery "j" (some (initialRequest "j"))
        ⟨1, 0, 5, 9, none, false⟩).writes) ∧
    (⟨"j", .failure, some 5, none⟩ : DiscoveryRequest).id =
        (initialRequest "j").id ∧
    (⟨"j", .failure, some 5, none⟩ : DiscoveryRequest).output_dir =
        (initialRequest "j").output_dir :=
  ⟨by decide,
   failure_write_frame "j" (initialRequest "j") ⟨1, 0, 5, 9, none, false⟩
     ⟨"j", .failure, some 5, none⟩ (by decide) rfl⟩

/-- C5: for a request id with no persisted record, `read_discovery`
returns the 404 payload carrying the synthetic `unknown` status (not an
error), and `read_discovery_file` returns `NotFound` for every file
name. -/
theorem unknown_id_polling (store : Store) (fs : FS) (request_id : String)
    (h : List.lookup request_id store = none) :
    read_discovery store fs request_id =
      .unknownNotFound request_id RequestStatus.unknown.value
        "Request not found" ∧
    ∀ file_name, read_discovery_file store fs request_id file_name =
      .notFound "Request not found" := by
  unfold read_discovery read_discovery_file load_request
  rw [h]
  exact ⟨rfl, fun _ => rfl⟩

theorem unknown_id_polling_witness :
    read_discovery [] fsEmpty "nope" =
      .unknownNotFound "nope" RequestStatus.unknown.value
        "Request not found" ∧
    read_discovery_file [] fsEmpty "nope" "model.bpmn" =
      .notFound "Request not found" :=
  ⟨(unknown_id_polling [] fsEmpty "nope" rfl).1,
   (unknown_id_polling [] fsEmpty "nope" rfl).2 "model.bpmn"⟩

/-- C6: a record written by `save_request` and reloaded by
`load_request` comes back field-for-field identical — `id`, `status`,
`timestamp` and `output_dir` — for every record whose `output_dir` is
not the empty string (no `pathlib.Path` stringifies to the empty
string, so every Python-representable record satisfies the
hypothesis). -/
theorem save_load_round_trip (store : Store) (r : DiscoveryRequest)
    (h : r.output_dir ≠ some "") :
    load_request (save_request store r) r.id = .ok r := by
  obtain ⟨i, st, ts, od⟩ := r
  change od ≠ some "" at h
  simp only [save_request, request_json, load_request, List.lookup,
    beq_self_eq_true, RequestStatus.fromValue_value]
  cases od with
  | none => rfl
  | some s =>
    have hs : ¬(s = "") := fun hs => h (by rw [hs])
    simp [hs]

theorem save_load_round_trip_witness :
    ((⟨"j", .success, some 5, some "/out"⟩ : DiscoveryRequest).output_dir ≠
      some "") ∧
    load_request (save_request [] ⟨"j", .success, some 5, some "/out"⟩) "j" =
      .ok ⟨"j", .success, some 5, some "/out"⟩ :=
  ⟨by decide,
   save_load_round_trip [] ⟨"j", .success, some 5, some "/out"⟩ (by decide)⟩

theorem filenameEndsWith_eq_getD (fn : Option String) (suffix : String)
    (hsuf : pyEndsWith "" suffix = false) :
    filenameEndsWith fn suffix = pyEndsWith (fn.getD "") suffix := by
  cases fn with
  | none => simp [filenameEndsWith, pyStrTruthy, hsuf]
  | some s =>
    by_cases hs : s = ""
    · subst hs
      simp [filenameEndsWith, pyStrTruthy, hsuf]
    · simp [filenameEndsWith, pyStrTruthy, hs]

/-- C7: `_infer_event_log_extension` implements exactly the cascade the
specification states: `.csv` if the content type hints CSV or the
filename ends `.csv`; `.xes` if the content type hints an XML family or
the filename ends `.xes`; `.xml` if the filename ends `.xml`; `.csv`
otherwise. -/
theorem infer_extension_matches_spec (content_type : String)
    (filename : Option String) :
    _infer_event_log_extension content_type filename =
      inferExtensionSpec content_type filename := by
  unfold _infer_event_log_extension inferExtensionSpec
  rw [filenameEndsWith_eq_getD filename ".csv" (by decide),
    filenameEndsWith_eq_getD filename ".xes" (by decide),
    filenameEndsWith_eq_getD filename ".xml" (by decide)]

/-- C8 (amended): under the reachable-store invariant that `output_dir`
is set only on a `success` record, `read_discovery_file` returns
`NotFound` whenever the record's status is not `success`, or its
`output_dir` is absent, or the output directory does not exist on
disk.  (Without the invariant the status is simply never checked; see
the counterexample.) -/
theorem read_discovery_file_no_content (store : Store) (fs : FS)
    (request_id file_name : String) (request : DiscoveryRequest)
    (hload : load_request store request_id = .ok request)
    (hinv : request.output_dir.isSome = true → request.status = .success)
    (hbad : request.status ≠ .success ∨ request.output_dir = none ∨
        (∀ od, request.output_dir = some od → fs.pathExists od = false)) :
    (read_discovery_file store fs request_id file_name).isNotFound = true := by
  obtain ⟨i, st, ts, od⟩ := request
  unfold read_discovery_file
  rw [hload]
  cases od with
  | none => rfl
  | some od =>
    have hsucc : st = .success := hinv rfl
    rcases hbad with hb | hb | hb
    · exact absurd hsucc hb
    · simp at hb
    · have hex := hb od rfl
      simp [hex, FileResult.isNotFound]

theorem read_discovery_file_no_content_witness :
    (read_discovery_file storeFailedNoOutput fsAll "k" "model.bpmn").isNotFound
      = true :=
  read_discovery_file_no_content storeFailedNoOutput fsAll "k" "model.bpmn"
    ⟨"k", .failure, some 4, none⟩ rfl (by decide) (Or.inl (by decide))

/-- C8 counterexample: a record with status `running` but an (existing)
output directory set — a state the system itself never persists —
yields file content: `read_discovery_file` never inspects the status,
so the claim as stated over every job record is false. -/
theorem read_discovery_file_ignores_status :
    load_request storeRunningWithOutput "j" =
      .ok ⟨"j", .running, none, some "/od"⟩ ∧
    read_discovery_file storeRunningWithOutput fsAll "j" "model.bpmn" =
      .content [1, 2, 3] "application/xml" "model.bpmn" := by
  constructor <;> rfl

/-- C9 counterexample: with the namespace `requests/j` already existing
and a record for `"j"` already stored, `create_discovery`'s storage
path still succeeds — `mkdir(parents=True, exist_ok=True)` never raises
`AlreadyExists`; the initial record simply overwrites the old one. -/
theorem create_ignores_existing_namespace :
    ("requests/j" ∈ ["requests/j"]) ∧
    create_discovery_store storeExistingJ ["requests/j"] "j" =
      .ok (save_request storeExistingJ (initialRequest "j"),
        ["requests/j"]) := by
  constructor
  · exact List.mem_singleton.mpr rfl
  · rfl

/-- C9 (amended): `create_discovery`'s storage path never fails with
`AlreadyExists`: it reuses the namespace when it exists (creating it
otherwise) and writes the initial `accepted` record, overwriting any
record already stored under that id. -/
theorem create_discovery_store_total (store : Store) (dirs : List String)
    (request_id : String) :
    create_discovery_store store dirs request_id =
      .ok (save_request store (initialRequest request_id),
        if "requests/" ++ request_id ∈ dirs then dirs
        else ("requests/" ++ request_id) :: dirs) := by
  unfold create_discovery_store Path.mkdir
  by_cases hmem : "requests/" ++ request_id ∈ dirs
  · simp [hmem]
  · simp [hmem]

end SimuBridge
